import Mathlib

set_option maxRecDepth 100000

/-!
Verification development for the `axon` conversion-orchestration scripts
(`src/scripts/conversion/convert_common.py`, `convert_huggingface.py`,
`convert_pytorch.py`, `convert_tensorflow.py`).

Each definition below is a shallow embedding of a function or constant of
those scripts; the comment on each names the source function and lines it
embeds.  Theorems at the end of the file settle the behavioural claims of
the design specification against these embeddings.
-/

namespace Axon

/-! ## String primitives

Python string operations, modelled over the character list of a `String`
by structural recursion so that every definition evaluates inside the
kernel (the corresponding core `String` functions recurse on byte
positions and do not). -/

/-- Split a character list at every occurrence of `c`; the result is the
list of the (possibly empty) pieces between occurrences, as Python
`str.split(c)` produces. -/
def splitChar (c : Char) : List Char → List (List Char)
  | [] => [[]]
  | x :: xs =>
    if x = c then [] :: splitChar c xs
    else
      match splitChar c xs with
      | [] => [[x]]
      | y :: ys => (x :: y) :: ys

/-- Python `s.split(c)`. -/
def pySplit (c : Char) (s : String) : List String :=
  (splitChar c s.data).map String.mk

/-- Python `c in s` for a one-character needle. -/
def strContainsChar (s : String) (c : Char) : Bool :=
  s.data.contains c

/-- Python `s.startswith(pre)`. -/
def strStartsWith (s pre : String) : Bool :=
  pre.data.isPrefixOf s.data

/-- Python `s.endswith(suf)`. -/
def strEndsWith (s suf : String) : Bool :=
  suf.data.isSuffixOf s.data

/-- Python `s[n:]` for ASCII data. -/
def strDrop (s : String) (n : Nat) : String :=
  String.mk (s.data.drop n)

/-- Python `s.lower()` for ASCII data. -/
def strToLower (s : String) : String :=
  String.mk (s.data.map Char.toLower)

/-- Python `s.replace(c, '')` for a one-character pattern. -/
def removeChar (c : Char) (s : String) : String :=
  String.mk (s.data.filter (fun x => x ≠ c))

/-- Python `sep.join(parts)`. -/
def strIntercalate (sep : String) : List String → String
  | [] => ""
  | [x] => x
  | x :: y :: rest => x ++ sep ++ strIntercalate sep (y :: rest)

/-- Code-point lexicographic comparison of character lists: Python `<` on
strings. -/
def strLtChars : List Char → List Char → Bool
  | [], [] => false
  | [], _ :: _ => true
  | _ :: _, [] => false
  | a :: as, b :: bs =>
    if a.toNat < b.toNat then true
    else if b.toNat < a.toNat then false
    else strLtChars as bs

/-- Python `a < b` on strings. -/
def strLt (a b : String) : Bool :=
  strLtChars a.data b.data

/-! ## Strategy chain executor

Embeds the `for strategy in strategies: if strategy(): return True` loop of
`convert_huggingface_to_onnx` (convert_huggingface.py lines 820-831),
`convert_pytorch_to_onnx` (convert_pytorch.py lines 462-487) and
`convert_tensorflow_to_onnx` (convert_tensorflow.py lines 207-232).
A strategy attempt is modelled by its observable outcome: the boolean it
returns and the set of output files it produces on success. -/

/-- Outcome of one conversion strategy attempt: the success flag the Python
strategy function returns and the output files it produced. -/
structure StrategyOutcome where
  success : Bool
  outputs : List String
deriving DecidableEq, Repr

/-- One step of the chain loop starting at strategy index `i`: returns the
list of indices of strategies that get invoked, and the outcome of the
first successful strategy (or `none` when the chain is exhausted). -/
def runChainFrom : Nat → List StrategyOutcome → List Nat × Option StrategyOutcome
  | _, [] => ([], none)
  | i, s :: rest =>
    if s.success then ([i], some s)
    else (i :: (runChainFrom (i + 1) rest).1, (runChainFrom (i + 1) rest).2)

/-- The strategy chain executor: runs strategies in order from index 0,
stopping at the first success. -/
def runChain (ss : List StrategyOutcome) : List Nat × Option StrategyOutcome :=
  runChainFrom 0 ss

/-- Result of the whole converter function: `True` iff some strategy
succeeded (convert_huggingface.py lines 825-831). -/
def convert_result (ss : List StrategyOutcome) : Bool :=
  (runChain ss).2.isSome

/-- Embeds the `__main__` block shared by the three scripts
(convert_huggingface.py lines 844-854, convert_pytorch.py lines 499-509,
convert_tensorflow.py lines 244-254): exit 1 unless exactly four argv
entries (the script name plus three positional arguments), else exit 0
exactly when the converter returned `True`. -/
def script_main (argc : Nat) (conv_success : Bool) : Nat :=
  if argc ≠ 4 then 1 else if conv_success then 0 else 1

/-- A Python statement-suite skeleton: for each consecutive statement line,
its indentation column and whether it opens a block (ends in `:`).  A suite
is well formed only if every block-opening line is followed by a line that
is indented strictly deeper. -/
def pyBlocksValid : List (Nat × Bool) → Bool
  | [] => true
  | [(_, opens)] => !opens
  | (i, opens) :: (j, o2) :: rest =>
    ((!opens) || decide (i < j)) && pyBlocksValid ((j, o2) :: rest)

/-- The statement lines of `convert_tensorflow_to_onnx`, convert_tensorflow.py
lines 208-223, as (indentation, opens-a-block) pairs:
`strategies = []` (8), `if os.path.exists(model_path):` (8), `if
os.path.isdir(model_path):` (8, not indented under the previous `if`),
two `strategies.append` lines (16), `elif os.path.isfile(model_path):` (12),
`strategies.append` (16), `strategies.append` (8), `for strategy in
strategies:` (8), `if strategy():` (12), `return True` (16). -/
def tf_strategy_block : List (Nat × Bool) :=
  [(8, false), (8, true), (8, true), (16, false), (16, false), (12, true), (16, false),
   (8, false), (8, true), (12, true), (16, false)]

/-! ## Output classifier and manifest writer

Embeds `write_multi_encoder_manifest` (convert_common.py lines 32-74; the
same classification also appears in convert_huggingface.py lines 461-504
and convert_pytorch.py lines 36-56). -/

/-- `os.path.basename`: the substring after the last `/`. -/
def basename (p : String) : String :=
  (pySplit '/' p).getLastD p

/-- `file_names = [os.path.basename(f) for f in onnx_files]`
(convert_common.py line 38). -/
def manifest_file_names (onnx_files : List String) : List String :=
  onnx_files.map basename

/-- `task or 'unknown'` (convert_common.py line 64): Python `or` falls
through on `None` and on the empty (falsy) string. -/
def manifest_task : Option String → String
  | some t => if t = "" then "unknown" else t
  | none => "unknown"

/-- The manifest document written by `write_multi_encoder_manifest`
(convert_common.py lines 61-67). -/
structure Manifest where
  architecture : String
  encoder_type : String
  task : String
  components : List (String × String)
  files : List String
deriving DecidableEq, Repr

/-- Embeds the classification in `write_multi_encoder_manifest`
(convert_common.py lines 37-67). -/
def write_multi_encoder_manifest (onnx_files : List String) (task : Option String) : Manifest :=
  if "text_model.onnx" ∈ manifest_file_names onnx_files ∧
      "vision_model.onnx" ∈ manifest_file_names onnx_files then
    { architecture := "multi-encoder", encoder_type := "clip", task := manifest_task task,
      components := [("text_encoder", "text_model.onnx"), ("vision_encoder", "vision_model.onnx")],
      files := manifest_file_names onnx_files }
  else if "encoder_model.onnx" ∈ manifest_file_names onnx_files ∧
      "decoder_model.onnx" ∈ manifest_file_names onnx_files then
    { architecture := "encoder-decoder", encoder_type := "seq2seq", task := manifest_task task,
      components := [("encoder", "encoder_model.onnx"), ("decoder", "decoder_model.onnx")] ++
        (if "decoder_with_past_model.onnx" ∈ manifest_file_names onnx_files then
          [("decoder_with_past", "decoder_with_past_model.onnx")] else []),
      files := manifest_file_names onnx_files }
  else
    { architecture := "multi-model", encoder_type := "unknown", task := manifest_task task,
      components := (manifest_file_names onnx_files).enum.map
        (fun p => ("model_" ++ toString p.1, p.2)),
      files := manifest_file_names onnx_files }

/-! ## Architecture registry

Embeds the constant tables `TASK_MAPPING` (convert_huggingface.py lines
62-238, in source order; the dict has no duplicate keys, so first-match
association-list lookup coincides with Python dict lookup) and
`MODEL_CLASS_MAPPING` (lines 242-272). -/

/-- `TASK_MAPPING`: metadata signature to Optimum task label. -/
def TASK_MAPPING : List (String × String) := [
  ("ResNetConfig", "image-classification"),
  ("ResNetForImageClassification", "image-classification"),
  ("ViTConfig", "image-classification"),
  ("ViTForImageClassification", "image-classification"),
  ("ViTMAEConfig", "image-classification"),
  ("ViTMSNConfig", "image-classification"),
  ("DeiTConfig", "image-classification"),
  ("DeiTForImageClassification", "image-classification"),
  ("BeitConfig", "image-classification"),
  ("BeitForImageClassification", "image-classification"),
  ("SwinConfig", "image-classification"),
  ("SwinForImageClassification", "image-classification"),
  ("Swinv2Config", "image-classification"),
  ("Swinv2ForImageClassification", "image-classification"),
  ("ConvNextConfig", "image-classification"),
  ("ConvNextForImageClassification", "image-classification"),
  ("ConvNextV2Config", "image-classification"),
  ("ConvNextV2ForImageClassification", "image-classification"),
  ("EfficientNetConfig", "image-classification"),
  ("EfficientNetForImageClassification", "image-classification"),
  ("VGGConfig", "image-classification"),
  ("MobileNetV1Config", "image-classification"),
  ("MobileNetV2Config", "image-classification"),
  ("MobileNetV2ForImageClassification", "image-classification"),
  ("MobileViTConfig", "image-classification"),
  ("MobileViTForImageClassification", "image-classification"),
  ("MobileViTV2Config", "image-classification"),
  ("RegNetConfig", "image-classification"),
  ("RegNetForImageClassification", "image-classification"),
  ("Dinov2Config", "image-classification"),
  ("Dinov2ForImageClassification", "image-classification"),
  ("PoolFormerConfig", "image-classification"),
  ("PoolFormerForImageClassification", "image-classification"),
  ("LevitConfig", "image-classification"),
  ("LevitForImageClassification", "image-classification"),
  ("CvtConfig", "image-classification"),
  ("CvtForImageClassification", "image-classification"),
  ("FocalNetConfig", "image-classification"),
  ("BitConfig", "image-classification"),
  ("BitForImageClassification", "image-classification"),
  ("Data2VecVisionConfig", "image-classification"),
  ("Data2VecVisionForImageClassification", "image-classification"),
  ("NatConfig", "image-classification"),
  ("NatForImageClassification", "image-classification"),
  ("DinatConfig", "image-classification"),
  ("PvtConfig", "image-classification"),
  ("PvtV2Config", "image-classification"),
  ("VanConfig", "image-classification"),
  ("DenseNetConfig", "image-classification"),
  ("InceptionV3Config", "image-classification"),
  ("DetrConfig", "object-detection"),
  ("DetrForObjectDetection", "object-detection"),
  ("YolosConfig", "object-detection"),
  ("YolosForObjectDetection", "object-detection"),
  ("ConditionalDetrConfig", "object-detection"),
  ("DeformableDetrConfig", "object-detection"),
  ("DetaConfig", "object-detection"),
  ("GroundingDinoConfig", "object-detection"),
  ("RTDetrConfig", "object-detection"),
  ("SegformerConfig", "semantic-segmentation"),
  ("SegformerForSemanticSegmentation", "semantic-segmentation"),
  ("MaskFormerConfig", "semantic-segmentation"),
  ("Mask2FormerConfig", "semantic-segmentation"),
  ("UperNetConfig", "semantic-segmentation"),
  ("OneFormerConfig", "semantic-segmentation"),
  ("DPTConfig", "depth-estimation"),
  ("GLPNConfig", "depth-estimation"),
  ("DepthAnythingConfig", "depth-estimation"),
  ("GPT2Config", "text-generation"),
  ("GPTNeoConfig", "text-generation"),
  ("GPTNeoXConfig", "text-generation"),
  ("GPTJConfig", "text-generation"),
  ("LlamaConfig", "text-generation"),
  ("MistralConfig", "text-generation"),
  ("Phi3Config", "text-generation"),
  ("OPTConfig", "text-generation"),
  ("BloomConfig", "text-generation"),
  ("BertConfig", "fill-mask"),
  ("RobertaConfig", "fill-mask"),
  ("DistilBertConfig", "fill-mask"),
  ("AlbertConfig", "fill-mask"),
  ("ElectraConfig", "fill-mask"),
  ("CamembertConfig", "fill-mask"),
  ("XLMRobertaConfig", "fill-mask"),
  ("DebertaConfig", "fill-mask"),
  ("DebertaV2Config", "fill-mask"),
  ("T5Config", "text2text-generation"),
  ("BartConfig", "text2text-generation"),
  ("MT5Config", "text2text-generation"),
  ("MBartConfig", "text2text-generation"),
  ("PegasusConfig", "text2text-generation"),
  ("XLNetConfig", "text-classification"),
  ("MPNetConfig", "feature-extraction"),
  ("SentenceTransformersConfig", "feature-extraction"),
  ("CLIPConfig", "zero-shot-image-classification"),
  ("CLIPModel", "zero-shot-image-classification"),
  ("CLIPTextConfig", "feature-extraction"),
  ("CLIPVisionConfig", "image-classification"),
  ("BlipConfig", "image-to-text"),
  ("Blip2Config", "image-to-text"),
  ("Wav2Vec2Config", "automatic-speech-recognition"),
  ("WhisperConfig", "automatic-speech-recognition"),
  ("HubertConfig", "automatic-speech-recognition")]

/-- `MODEL_CLASS_MAPPING`: task label to loader class name. -/
def MODEL_CLASS_MAPPING : List (String × String) := [
  ("image-classification", "AutoModelForImageClassification"),
  ("object-detection", "AutoModelForObjectDetection"),
  ("semantic-segmentation", "AutoModelForSemanticSegmentation"),
  ("depth-estimation", "AutoModelForDepthEstimation"),
  ("zero-shot-image-classification", "AutoModel"),
  ("image-to-text", "AutoModelForVision2Seq"),
  ("text-generation", "AutoModelForCausalLM"),
  ("fill-mask", "AutoModelForMaskedLM"),
  ("text2text-generation", "AutoModelForSeq2SeqLM"),
  ("text-classification", "AutoModelForSequenceClassification"),
  ("token-classification", "AutoModelForTokenClassification"),
  ("question-answering", "AutoModelForQuestionAnswering"),
  ("feature-extraction", "AutoModel"),
  ("automatic-speech-recognition", "AutoModelForSpeechSeq2Seq"),
  ("audio-classification", "AutoModelForAudioClassification"),
  ("default", "AutoModel")]

/-- Embeds `get_model_class` (convert_huggingface.py lines 348-351):
`MODEL_CLASS_MAPPING.get(task, MODEL_CLASS_MAPPING['default'])`. -/
def get_model_class (task : String) : String :=
  match MODEL_CLASS_MAPPING.lookup task with
  | some c => c
  | none => (MODEL_CLASS_MAPPING.lookup "default").getD ""

/-! ## Task detector

Embeds `detect_task_from_config` (convert_huggingface.py lines 294-345).
The configuration document is represented by the three fields the function
reads: the `architectures` list, the `model_type` string (Python
`config.get` default: the empty string) and the `auto_map` entries. -/

/-- Python `str.title` on ASCII data: the first alphabetic character of
each run of alphabetic characters is uppercased, the rest lowercased;
non-alphabetic characters pass through and start a new run. -/
def pyTitleGo : Bool → List Char → List Char
  | _, [] => []
  | atStart, c :: cs =>
    if c.isAlpha then
      (if atStart then c.toUpper else c.toLower) :: pyTitleGo false cs
    else
      c :: pyTitleGo true cs

/-- Python `str.title`. -/
def pyTitle (s : String) : String :=
  String.mk (pyTitleGo true s.data)

/-- The canonical configuration-class signature derived from `model_type`
(convert_huggingface.py lines 319-323):
`'CLIPConfig' if model_type.lower() == 'clip' else
model_type.title().replace('-', '').replace('_', '') + 'Config'`. -/
def derive_config_class_name (model_type : String) : String :=
  if strToLower model_type = "clip" then "CLIPConfig"
  else removeChar '_' (removeChar '-' (pyTitle model_type)) ++ "Config"

/-- `value.split('.')[-1] if '.' in value else value`
(convert_huggingface.py line 334). -/
def lastDotComponent (v : String) : String :=
  if strContainsChar v '.' then (pySplit '.' v).getLastD v else v

/-- Embeds `detect_task_from_config` (convert_huggingface.py lines 309-341):
first matching `architectures` entry, else the signature derived from
`model_type`, else the first matching `auto_map` class-name suffix. -/
def detect_task_from_config (architectures : List String) (model_type : String)
    (auto_map : List (String × String)) : Option String :=
  match architectures.findSome? (fun a => TASK_MAPPING.lookup a) with
  | some t => some t
  | none =>
    match TASK_MAPPING.lookup (derive_config_class_name model_type) with
    | some t => some t
    | none => auto_map.findSome? (fun kv => TASK_MAPPING.lookup (lastDotComponent kv.2))

/-! ## Input synthesizer

Embeds `create_dummy_input` of convert_huggingface.py (lines 601-684) and
`create_dummy_input` of convert_pytorch.py (lines 130-171).  `torch.randn`
float tensors are modelled by their shape; `torch.randint(0, hi, shape)`
integer tensors carry their values, drawn from an explicitly threaded
pseudo-random generator state (a linear congruential generator), which
models torch's ambient global generator; the values of `randints` lie in
`[0, hi)` exactly as those of `torch.randint` do. -/

/-- One step of the modelled pseudo-random generator. -/
def lcg (s : Nat) : Nat :=
  (1103515245 * s + 12345) % 4294967296

/-- The `n` values of `torch.randint(0, hi, (1, n))` at generator state
`g`: each value is reduced modulo `hi`, hence lies in `[0, hi)`. -/
def randints (g n hi : Nat) : List Nat :=
  (List.range n).map (fun i => lcg (g + i) % hi)

/-- A synthesized tensor: `torch.randn` tensors by shape,
`torch.randint` / `torch.ones(dtype=long)` tensors by shape and values. -/
inductive Tensor where
  | float (shape : List Nat)
  | int (shape : List Nat) (values : List Nat)
deriving DecidableEq, Repr

/-- The shape of a synthesized tensor. -/
def Tensor.shape : Tensor → List Nat
  | .float s => s
  | .int s _ => s

/-- Dynamic-axes annotation: tensor name to (axis index, axis name). -/
def DynAxes := List (String × List (Nat × String))
deriving DecidableEq, Repr

/-- A SyntheticInput: either a single tensor or a named bundle, together
with the input-name list and the dynamic-axes annotation returned
alongside it. -/
inductive DummyInput where
  | single (t : Tensor) (input_names : List String) (dyn : DynAxes)
  | bundle (entries : List (String × Tensor)) (input_names : List String) (dyn : DynAxes)
deriving DecidableEq, Repr

/-- The shape signature of a SyntheticInput: entry names and tensor shapes,
input names and dynamic axes — everything except the randomly drawn tensor
values. -/
def DummyInput.sig : DummyInput →
    List (Option String × List Nat) × List String × DynAxes
  | .single t names dyn => ([(none, t.shape)], names, dyn)
  | .bundle es names dyn => (es.map (fun e => (some e.1, e.2.shape)), names, dyn)

/-- The values of the tensor named `input_ids` in a bundle. -/
def inputIdsValues : DummyInput → List Nat
  | .bundle es _ _ =>
    match es.lookup "input_ids" with
    | some (.int _ vs) => vs
    | _ => []
  | _ => []

/-- A declared image size in a configuration: an integer or a tuple. -/
inductive SizeVal where
  | nat (n : Nat)
  | tup (l : List Nat)
deriving DecidableEq, Repr

/-- Python truthiness of a declared size (`0` and `()` are falsy). -/
def SizeVal.truthy : SizeVal → Bool
  | .nat n => n ≠ 0
  | .tup l => !l.isEmpty

/-- Python `a or b` over an optional declared size: `b` when the attribute
is absent or falsy. -/
def orTruthy (a : Option SizeVal) (b : SizeVal) : SizeVal :=
  match a with
  | some v => if v.truthy then v else b
  | none => b

/-- The `vision_config` sub-object: only its `image_size` entry is read. -/
structure VisionCfg where
  image_size : Option Nat
deriving DecidableEq, Repr

/-- The model-configuration attributes `create_dummy_input` reads
(convert_huggingface.py lines 605-684). -/
structure HFConfig where
  image_size : Option SizeVal
  img_size : Option SizeVal
  sample_size : Option SizeVal
  max_position_embeddings : Option Nat
  vocab_size : Option Nat
  vision_config : Option VisionCfg
deriving DecidableEq, Repr

/-- `getattr(config, 'image_size', None) or getattr(config, 'img_size',
None) or getattr(config, 'sample_size', None) or 224`
(convert_huggingface.py lines 622-625). -/
def resolvedImageSize (cfg : HFConfig) : SizeVal :=
  orTruthy cfg.image_size (orTruthy cfg.img_size (orTruthy cfg.sample_size (.nat 224)))

/-- Height and width from a declared size: `height, width = height[0],
height[-1]` for tuples, equal otherwise (convert_huggingface.py
lines 626-631). -/
def heightWidth : SizeVal → Nat × Nat
  | .nat n => (n, n)
  | .tup l => (l.headD 0, l.getLastD 0)

/-- The image edge length of the zero-shot branch
(convert_huggingface.py line 659): `vision_config.get('image_size', 224)`
when a `vision_config` is present, else 224. -/
def zeroShotEdge (cfg : HFConfig) : Nat :=
  match cfg.vision_config with
  | some vc => vc.image_size.getD 224
  | none => 224

/-- The `vision_tasks` list of convert_huggingface.py lines 608-614. -/
def vision_tasks : List String :=
  ["image-classification", "object-detection", "semantic-segmentation",
   "depth-estimation", "image-to-text"]

/-- Embeds `create_dummy_input` of convert_huggingface.py (lines 601-684). -/
def create_dummy_input (cfg : HFConfig) (task : String) (g : Nat) : DummyInput :=
  if task ∈ vision_tasks then
    DummyInput.single
      (Tensor.float [1, 3, (heightWidth (resolvedImageSize cfg)).1,
        (heightWidth (resolvedImageSize cfg)).2])
      ["pixel_values"]
      (("pixel_values", [(0, "batch_size")]) ::
        (if task = "object-detection" then ["logits", "pred_boxes"]
         else if task = "semantic-segmentation" ∨ task = "depth-estimation" then ["logits"]
         else ["logits"]).map (fun n => (n, [(0, "batch_size")])))
  else if task = "zero-shot-image-classification" then
    DummyInput.bundle
      [("pixel_values", Tensor.float [1, 3, zeroShotEdge cfg, zeroShotEdge cfg]),
       ("input_ids", Tensor.int [1, 77] (randints g 77 1000)),
       ("attention_mask", Tensor.int [1, 77] (List.replicate 77 1))]
      ["pixel_values", "input_ids", "attention_mask"]
      []
  else
    DummyInput.single
      (Tensor.int [1, min 128 (cfg.max_position_embeddings.getD 128)]
        (randints g (min 128 (cfg.max_position_embeddings.getD 128))
          (cfg.vocab_size.getD 30522)))
      ["input_ids"]
      [("input_ids", [(0, "batch_size"), (1, "sequence_length")]),
       ("output", [(0, "batch_size")])]

/-- The configuration attributes read by `create_dummy_input` of
convert_pytorch.py (lines 144-146). -/
structure PTConfig where
  vocab_size : Option Nat
  max_position_embeddings : Option Nat
deriving DecidableEq, Repr

/-- A PyTorch model as read by `create_dummy_input` of convert_pytorch.py:
an optional `config` attribute and an optional direct `vocab_size`
attribute. -/
structure PTModel where
  config : Option PTConfig
  vocab_size_attr : Option Nat
deriving DecidableEq, Repr

/-- The vocabulary size resolved by convert_pytorch.py lines 141-148:
default 30522, overridden by `model.config.vocab_size`, else by
`model.vocab_size`. -/
def ptVocabSize (m : PTModel) : Nat :=
  match m.config with
  | some c => c.vocab_size.getD 30522
  | none => m.vocab_size_attr.getD 30522

/-- The sequence length resolved by convert_pytorch.py lines 142-146:
`min(128, config.max_position_embeddings)` when a config is present,
else 128. -/
def ptSeqLen (m : PTModel) : Nat :=
  match m.config with
  | some c => min 128 (c.max_position_embeddings.getD 128)
  | none => 128

/-- Embeds `create_dummy_input` of convert_pytorch.py (lines 130-171). -/
def create_dummy_input_pt (m : PTModel) (model_type task : String) (g : Nat) : DummyInput :=
  if model_type = "vision" ∨ task = "image-classification" then
    DummyInput.single (Tensor.float [1, 3, 224, 224]) ["pixel_values"]
      [("pixel_values", [(0, "batch_size")])]
  else if model_type = "nlp" then
    if task = "text-generation" then
      DummyInput.single
        (Tensor.int [1, ptSeqLen m] (randints g (ptSeqLen m) (ptVocabSize m)))
        ["input_ids"]
        [("input_ids", [(0, "batch_size"), (1, "sequence_length")])]
    else
      DummyInput.single
        (Tensor.int [1, ptSeqLen m] (randints g (ptSeqLen m) (ptVocabSize m)))
        ["input_ids"]
        [("input_ids", [(0, "batch_size"), (1, "sequence_length")])]
  else if model_type = "multimodal" ∨ task = "zero-shot-image-classification" then
    DummyInput.bundle
      [("pixel_values", Tensor.float [1, 3, 224, 224]),
       ("input_ids", Tensor.int [1, 77] (randints g 77 49408)),
       ("attention_mask", Tensor.int [1, 77] (List.replicate 77 1))]
      ["pixel_values", "input_ids", "attention_mask"]
      []
  else
    DummyInput.single (Tensor.float [1, 3, 224, 224]) ["input"]
      [("input", [(0, "batch_size")])]

/-- The text-family task labels of the specification. -/
def textFamilyTasks : List String :=
  ["text-generation", "fill-mask", "text2text-generation",
   "text-classification", "feature-extraction"]

/-- A configuration declaring none of the optional attributes. -/
def cfgAllNone : HFConfig :=
  { image_size := none, img_size := none, sample_size := none,
    max_position_embeddings := none, vocab_size := none, vision_config := none }

/-- A PyTorch model carrying neither a `config` nor a `vocab_size`
attribute. -/
def ptModelNone : PTModel :=
  { config := none, vocab_size_attr := none }

/-! ## Identifier parsing -/

/-- Embeds `extract_hf_model_id` (convert_huggingface.py lines 275-291):
drop a leading `hf/`, then truncate at the first `@`. -/
def extract_hf_model_id (axon_model_id : String) : String :=
  let hf_model_id :=
    if strStartsWith axon_model_id "hf/" then strDrop axon_model_id 3 else axon_model_id
  if strContainsChar hf_model_id '@' then (pySplit '@' hf_model_id).headD hf_model_id
  else hf_model_id

/-- Embeds `extract_pytorch_model_id` (convert_pytorch.py lines 58-66):
drop everything up to the first `/`, then truncate at the first `@`. -/
def extract_pytorch_model_id (axon_model_id : String) : String :=
  let model_id :=
    if strContainsChar axon_model_id '/' then
      strIntercalate "/" (pySplit '/' axon_model_id).tail
    else axon_model_id
  if strContainsChar model_id '@' then (pySplit '@' model_id).headD model_id else model_id

/-- Embeds the PyTorch-Hub identifier split in `try_pytorch_hub_load`
(convert_pytorch.py lines 236-239): everything before the last `/` is the
hub repository, the last segment is the model name. -/
def pytorch_hub_parse (model_id : String) : Option (String × String) :=
  if strContainsChar model_id '/' then
    let parts := pySplit '/' model_id
    if parts.length ≥ 2 then
      some (strIntercalate "/" parts.dropLast, parts.getLastD "")
    else none
  else none

/-! ## Filesystem model and `find_onnx_files`

A filesystem is modelled as a finite map from directory paths to their
entry lists; a path is a directory exactly when it is in the map. -/

/-- Minimal filesystem model: directory path to directory-entry names. -/
structure FS where
  dirs : List (String × List String)

/-- `os.path.isdir`. -/
def FS.isdir (fs : FS) (p : String) : Bool :=
  (fs.dirs.lookup p).isSome

/-- `os.listdir` on a directory of the model. -/
def FS.listdir (fs : FS) (p : String) : List String :=
  (fs.dirs.lookup p).getD []

/-- `os.path.join` for a relative entry name. -/
def pathJoin (d f : String) : String := d ++ "/" ++ f

/-- Insert into a `<`-sorted list of strings, preserving order of equals. -/
def insertSorted (x : String) : List String → List String
  | [] => [x]
  | y :: ys => if strLt y x then y :: insertSorted x ys else x :: y :: ys

/-- Python `sorted` on strings (lexicographic by code points). -/
def sortStrings : List String → List String
  | [] => []
  | x :: xs => insertSorted x (sortStrings xs)

/-- Embeds the shared `find_onnx_files` (convert_common.py lines 11-29):
empty on a non-directory, else the `.onnx` entries of the directory plus
those of its `onnx/` subdirectory, sorted. -/
def find_onnx_files (fs : FS) (directory : String) : List String :=
  if fs.isdir directory then
    sortStrings
      ((((fs.listdir directory).filter (fun f => strEndsWith f ".onnx")).map
          (pathJoin directory)) ++
        (if fs.isdir (pathJoin directory "onnx") then
          ((fs.listdir (pathJoin directory "onnx")).filter
            (fun f => strEndsWith f ".onnx")).map (pathJoin (pathJoin directory "onnx"))
        else []))
  else []

/-- Embeds the local redefinition of `find_onnx_files` in
convert_huggingface.py lines 452-458: it calls `os.listdir` directly, so a
non-directory raises (modelled as `none`), and the `onnx/` subdirectory is
not scanned. -/
def find_onnx_files_hf (fs : FS) (directory : String) : Option (List String) :=
  if fs.isdir directory then
    some (sortStrings
      (((fs.listdir directory).filter (fun f => strEndsWith f ".onnx")).map
        (pathJoin directory)))
  else none

/-- A filesystem with a directory `d` holding one `.onnx` file and an
`onnx/` subdirectory that holds another. -/
def fsWithSubdir : FS :=
  ⟨[("d", ["a.onnx", "onnx"]), ("d/onnx", ["b.onnx"])]⟩

/-- A filesystem with a single directory holding one `.onnx` file and no
`onnx/` subdirectory. -/
def fsSingleDir : FS :=
  ⟨[("out", ["model.onnx", "notes.txt"])]⟩

/-! ## Helper lemmas -/

/-- `randints` always produces exactly `n` values. -/
theorem randints_length (g n hi : Nat) : (randints g n hi).length = n := by
  simp [randints]

/-- For a positive bound, every `randints` value lies in `[0, hi)`. -/
theorem randints_lt (g n hi : Nat) (h : 0 < hi) :
    ∀ v ∈ randints g n hi, v < hi := by
  intro v hv
  simp only [randints, List.mem_map, List.mem_range] at hv
  obtain ⟨i, _, rfl⟩ := hv
  exact Nat.mod_lt _ h

/-- If every strategy before index `k` fails and the one at `k` succeeds,
the chain starting at offset `i` invokes exactly offsets `i..i+k` and
returns strategy `k`'s outcome. -/
theorem runChainFrom_success (ss : List StrategyOutcome) (k : Nat) (hk : k < ss.length)
    (hfail : ∀ j, (hj : j < k) → (ss.get ⟨j, Nat.lt_trans hj hk⟩).success = false)
    (hsucc : (ss.get ⟨k, hk⟩).success = true) (i : Nat) :
    runChainFrom i ss = (List.range' i (k + 1), some (ss.get ⟨k, hk⟩)) := by
  induction ss generalizing k i with
  | nil => exact absurd hk (Nat.not_lt_zero k)
  | cons s rest ih =>
    cases k with
    | zero =>
      have hs : s.success = true := hsucc
      simp [runChainFrom, hs, List.range'_succ]
    | succ k2 =>
      have h0 : s.success = false := hfail 0 (Nat.succ_pos k2)
      have hk2 : k2 < rest.length := Nat.lt_of_succ_lt_succ hk
      have ihh := ih k2 hk2 (fun j hj => hfail (j + 1) (Nat.succ_lt_succ hj)) hsucc (i + 1)
      simp only [runChainFrom, h0, Bool.false_eq_true, if_false, ihh, List.range'_succ]
      rfl

/-- If every strategy fails, the chain starting at offset `i` invokes all
offsets and returns no outcome. -/
theorem runChainFrom_all_fail (ss : List StrategyOutcome)
    (h : ∀ s ∈ ss, s.success = false) (i : Nat) :
    runChainFrom i ss = (List.range' i ss.length, none) := by
  induction ss generalizing i with
  | nil => rfl
  | cons s rest ih =>
    have h0 : s.success = false := h s (List.mem_cons_self s rest)
    simp [runChainFrom, h0, ih (fun x hx => h x (List.mem_cons_of_mem s hx)),
      List.range'_succ]

/-- If some strategy succeeds, the chain returns an outcome. -/
theorem runChainFrom_isSome_of_exists (ss : List StrategyOutcome)
    (h : ∃ s ∈ ss, s.success = true) (i : Nat) :
    (runChainFrom i ss).2.isSome = true := by
  induction ss generalizing i with
  | nil =>
    obtain ⟨s, hs, _⟩ := h
    cases hs
  | cons s rest ih =>
    cases hs : s.success with
    | true => simp [runChainFrom, hs]
    | false =>
      obtain ⟨x, hx, hxs⟩ := h
      rcases List.mem_cons.mp hx with rfl | hx2
      · rw [hs] at hxs
        cases hxs
      · simp only [runChainFrom, hs, Bool.false_eq_true, if_false]
        exact ih ⟨x, hx2, hxs⟩ (i + 1)

/-! ## Claim theorems -/

/-- C1: for every ordered list of strategy outcomes, if the strategies
before index `k` all report failure and strategy `k` reports success, then
exactly strategies `0..k` are invoked (none after `k`) and the chain's
result is success carrying exactly strategy `k`'s output set; if every
strategy reports failure, every strategy is invoked and the chain's result
is failure. -/
theorem c1_chain_first_success_stops (ss : List StrategyOutcome) :
    (∀ k, (hk : k < ss.length) →
      (∀ j, (hj : j < k) → (ss.get ⟨j, Nat.lt_trans hj hk⟩).success = false) →
      (ss.get ⟨k, hk⟩).success = true →
      runChain ss = (List.range (k + 1), some (ss.get ⟨k, hk⟩))) ∧
    ((∀ s ∈ ss, s.success = false) →
      runChain ss = (List.range ss.length, none)) := by
  constructor
  · intro k hk hf hs
    rw [runChain, runChainFrom_success ss k hk hf hs 0, List.range_eq_range']
  · intro h
    rw [runChain, runChainFrom_all_fail ss h 0, List.range_eq_range']

/-- Witness for C1: a chain whose second strategy succeeds invokes only
strategies 0 and 1 and reports strategy 1's outputs. -/
theorem c1_chain_first_success_stops_witness :
    runChain [⟨false, ["broken.onnx"]⟩, ⟨true, ["model.onnx"]⟩, ⟨false, []⟩]
      = ([0, 1], some ⟨true, ["model.onnx"]⟩) := by
  have h := (c1_chain_first_success_stops
      [⟨false, ["broken.onnx"]⟩, ⟨true, ["model.onnx"]⟩, ⟨false, []⟩]).1 1 (by decide)
    (fun j hj => by
      have hj0 : j = 0 := Nat.lt_one_iff.mp hj
      subst hj0
      rfl)
    rfl
  simpa using h

/-- C2: for every list of at least two output filenames, the manifest
writer classifies by basenames: text plus vision model gives
`multi-encoder`/`clip` with the two encoder roles; otherwise encoder plus
decoder model gives `encoder-decoder`/`seq2seq` with the
`decoder_with_past` role exactly when that file is present; any other set
gives `multi-model` with roles `model_0..model_{n-1}` in discovery order. -/
theorem c2_manifest_classification (onnx_files : List String) (task : Option String)
    (h2 : 2 ≤ onnx_files.length) :
    (("text_model.onnx" ∈ manifest_file_names onnx_files ∧
        "vision_model.onnx" ∈ manifest_file_names onnx_files) →
      write_multi_encoder_manifest onnx_files task =
        { architecture := "multi-encoder", encoder_type := "clip", task := manifest_task task,
          components := [("text_encoder", "text_model.onnx"),
            ("vision_encoder", "vision_model.onnx")],
          files := manifest_file_names onnx_files }) ∧
    (¬ ("text_model.onnx" ∈ manifest_file_names onnx_files ∧
        "vision_model.onnx" ∈ manifest_file_names onnx_files) →
      ("encoder_model.onnx" ∈ manifest_file_names onnx_files ∧
        "decoder_model.onnx" ∈ manifest_file_names onnx_files) →
      write_multi_encoder_manifest onnx_files task =
        { architecture := "encoder-decoder", encoder_type := "seq2seq",
          task := manifest_task task,
          components := [("encoder", "encoder_model.onnx"),
              ("decoder", "decoder_model.onnx")] ++
            (if "decoder_with_past_model.onnx" ∈ manifest_file_names onnx_files then
              [("decoder_with_past", "decoder_with_past_model.onnx")] else []),
          files := manifest_file_names onnx_files }) ∧
    (¬ ("text_model.onnx" ∈ manifest_file_names onnx_files ∧
        "vision_model.onnx" ∈ manifest_file_names onnx_files) →
      ¬ ("encoder_model.onnx" ∈ manifest_file_names onnx_files ∧
        "decoder_model.onnx" ∈ manifest_file_names onnx_files) →
      write_multi_encoder_manifest onnx_files task =
        { architecture := "multi-model", encoder_type := "unknown",
          task := manifest_task task,
          components := (manifest_file_names onnx_files).enum.map
            (fun p => ("model_" ++ toString p.1, p.2)),
          files := manifest_file_names onnx_files }) := by
  refine ⟨fun hc => ?_, fun hn1 hc => ?_, fun hn1 hn2 => ?_⟩
  · rw [write_multi_encoder_manifest, if_pos hc]
  · rw [write_multi_encoder_manifest, if_neg hn1, if_pos hc]
  · rw [write_multi_encoder_manifest, if_neg hn1, if_neg hn2]

/-- Witness for C2: the CLIP file pair is classified `multi-encoder`. -/
theorem c2_manifest_classification_witness :
    2 ≤ (["onnx/text_model.onnx", "onnx/vision_model.onnx"] : List String).length ∧
    write_multi_encoder_manifest ["onnx/text_model.onnx", "onnx/vision_model.onnx"]
        (some "zero-shot-image-classification") =
      { architecture := "multi-encoder", encoder_type := "clip",
        task := "zero-shot-image-classification",
        components := [("text_encoder", "text_model.onnx"),
          ("vision_encoder", "vision_model.onnx")],
        files := ["text_model.onnx", "vision_model.onnx"] } :=
  ⟨by decide,
    (c2_manifest_classification ["onnx/text_model.onnx", "onnx/vision_model.onnx"]
      (some "zero-shot-image-classification") (by decide)).1 ⟨by decide, by decide⟩⟩

/-- C3: with exactly three positional arguments the modelled entry point
exits 0 when some strategy succeeds and 1 when all fail, and exits 1 on an
argument-count mismatch; but the strategy-assembly suite of
`convert_tensorflow_to_onnx` is not a well-formed Python block structure
(the `if os.path.isdir` on line 212 is not indented under the
`if os.path.exists` on line 211), so the TensorFlow script fails to parse
and can never reach a 0 exit. -/
theorem c3_exit_status_model :
    (∀ ss : List StrategyOutcome, (∃ s ∈ ss, s.success = true) →
      script_main 4 (convert_result ss) = 0) ∧
    (∀ ss : List StrategyOutcome, (∀ s ∈ ss, s.success = false) →
      script_main 4 (convert_result ss) = 1) ∧
    (∀ (n : Nat) (b : Bool), n ≠ 4 → script_main n b = 1) ∧
    pyBlocksValid tf_strategy_block = false := by
  refine ⟨fun ss h => ?_, fun ss h => ?_, fun n b hn => ?_, by decide⟩
  · have hb : convert_result ss = true := by
      rw [convert_result, runChain]
      exact runChainFrom_isSome_of_exists ss h 0
    simp [script_main, hb]
  · have hb : convert_result ss = false := by
      rw [convert_result, runChain, runChainFrom_all_fail ss h 0]
      rfl
    simp [script_main, hb]
  · simp [script_main, hn]

/-- Witness for C3: concrete exits for a succeeding chain, a failing chain
and a wrong argument count. -/
theorem c3_exit_status_model_witness :
    script_main 4 (convert_result [⟨true, ["model.onnx"]⟩]) = 0 ∧
    script_main 4 (convert_result [⟨false, []⟩]) = 1 ∧
    script_main 3 true = 1 :=
  ⟨c3_exit_status_model.1 [⟨true, ["model.onnx"]⟩] ⟨⟨true, ["model.onnx"]⟩, by decide, rfl⟩,
   c3_exit_status_model.2.1 [⟨false, []⟩] (by decide),
   c3_exit_status_model.2.2.1 3 true (by decide)⟩

/-- C4: the three identifier-parsing examples: `hf/distilgpt2@latest`
parses to `distilgpt2`; `microsoft/resnet-50` is returned unchanged by the
Hugging Face parser; `pytorch/vision:v0.10.0/resnet50` splits into hub
repository `pytorch/vision:v0.10.0` and model `resnet50`. -/
theorem c4_identifier_parsing_examples :
    extract_hf_model_id "hf/distilgpt2@latest" = "distilgpt2" ∧
    extract_hf_model_id "microsoft/resnet-50" = "microsoft/resnet-50" ∧
    pytorch_hub_parse "pytorch/vision:v0.10.0/resnet50" =
      some ("pytorch/vision:v0.10.0", "resnet50") :=
  ⟨by decide, by decide, by decide⟩

/-- C5: for every configuration whose `architectures` entries all miss the
registry and whose `model_type` is `bert`, the detector derives the
signature `BertConfig` by case normalization and separator stripping and
returns `fill-mask`. -/
theorem c5_bert_model_type_fill_mask (architectures : List String)
    (auto_map : List (String × String))
    (h : ∀ a ∈ architectures, TASK_MAPPING.lookup a = none) :
    derive_config_class_name "bert" = "BertConfig" ∧
    detect_task_from_config architectures "bert" auto_map = some "fill-mask" := by
  refine ⟨by decide, ?_⟩
  rw [detect_task_from_config, List.findSome?_eq_none_iff.mpr h]
  rfl

/-- Witness for C5: a configuration with an unregistered architecture and
`model_type` `bert` resolves to `fill-mask`. -/
theorem c5_bert_model_type_fill_mask_witness :
    (∀ a ∈ ["MyCustomModel"], TASK_MAPPING.lookup a = none) ∧
    (derive_config_class_name "bert" = "BertConfig" ∧
      detect_task_from_config ["MyCustomModel"] "bert"
        [("AutoModel", "modeling.MyCustomModel")] = some "fill-mask") :=
  ⟨by decide,
    c5_bert_model_type_fill_mask ["MyCustomModel"]
      [("AutoModel", "modeling.MyCustomModel")] (by decide)⟩

/-- C6: every task label occurring as a value of `TASK_MAPPING` has a
loader-class entry in `MODEL_CLASS_MAPPING`, and for any task label absent
from the loader table, `get_model_class` falls back to the default loader
`AutoModel`. -/
theorem c6_registry_totality :
    (∀ p ∈ TASK_MAPPING, (MODEL_CLASS_MAPPING.lookup p.2).isSome = true) ∧
    (∀ task : String, MODEL_CLASS_MAPPING.lookup task = none →
      get_model_class task = "AutoModel") := by
  refine ⟨by decide, fun task h => ?_⟩
  rw [get_model_class, h]
  rfl

/-- Witness for C6: a task label outside the loader table resolves to the
default loader. -/
theorem c6_registry_totality_witness :
    MODEL_CLASS_MAPPING.lookup "mask-generation" = none ∧
    get_model_class "mask-generation" = "AutoModel" :=
  ⟨by decide, c6_registry_totality.2 "mask-generation" (by decide)⟩

/-- C7: for every text-family task label and every configuration with a
positive (possibly defaulted) vocabulary size, both synthesizers produce a
single rank-2 integer tensor of shape `[1, min 128 declared_max_position]`
whose values all lie in `[0, vocab_size)`, with `vocab_size` defaulting to
30522 when undeclared. -/
theorem c7_text_input_synthesis :
    (∀ task ∈ textFamilyTasks, ∀ (cfg : HFConfig) (g : Nat),
      0 < cfg.vocab_size.getD 30522 →
      ∃ vals,
        create_dummy_input cfg task g =
          DummyInput.single
            (Tensor.int [1, min 128 (cfg.max_position_embeddings.getD 128)] vals)
            ["input_ids"]
            [("input_ids", [(0, "batch_size"), (1, "sequence_length")]),
             ("output", [(0, "batch_size")])] ∧
        vals.length = min 128 (cfg.max_position_embeddings.getD 128) ∧
        ∀ v ∈ vals, v < cfg.vocab_size.getD 30522) ∧
    (∀ task ∈ textFamilyTasks, ∀ (m : PTModel) (g : Nat),
      0 < ptVocabSize m →
      ∃ vals,
        create_dummy_input_pt m "nlp" task g =
          DummyInput.single (Tensor.int [1, ptSeqLen m] vals) ["input_ids"]
            [("input_ids", [(0, "batch_size"), (1, "sequence_length")])] ∧
        vals.length = ptSeqLen m ∧
        ∀ v ∈ vals, v < ptVocabSize m) := by
  constructor
  · intro task htask cfg g hv
    simp only [textFamilyTasks, List.mem_cons, List.not_mem_nil, or_false] at htask
    rcases htask with rfl | rfl | rfl | rfl | rfl <;>
      exact ⟨randints g (min 128 (cfg.max_position_embeddings.getD 128))
          (cfg.vocab_size.getD 30522),
        rfl, randints_length _ _ _, fun v hv2 => randints_lt _ _ _ hv v hv2⟩
  · intro task htask m g hv
    simp only [textFamilyTasks, List.mem_cons, List.not_mem_nil, or_false] at htask
    rcases htask with rfl | rfl | rfl | rfl | rfl <;>
      exact ⟨randints g (ptSeqLen m) (ptVocabSize m),
        rfl, randints_length _ _ _, fun v hv2 => randints_lt _ _ _ hv v hv2⟩

/-- Witness for C7: concrete synthesis for `fill-mask` on a configuration
declaring nothing. -/
theorem c7_text_input_synthesis_witness :
    (∃ vals,
      create_dummy_input cfgAllNone "fill-mask" 0 =
        DummyInput.single (Tensor.int [1, 128] vals) ["input_ids"]
          [("input_ids", [(0, "batch_size"), (1, "sequence_length")]),
           ("output", [(0, "batch_size")])] ∧
      vals.length = 128 ∧ ∀ v ∈ vals, v < 30522) ∧
    (∃ vals,
      create_dummy_input_pt ptModelNone "nlp" "fill-mask" 0 =
        DummyInput.single (Tensor.int [1, 128] vals) ["input_ids"]
          [("input_ids", [(0, "batch_size"), (1, "sequence_length")])] ∧
      vals.length = 128 ∧ ∀ v ∈ vals, v < 30522) :=
  ⟨c7_text_input_synthesis.1 "fill-mask" (by decide) cfgAllNone 0 (by decide),
   c7_text_input_synthesis.2 "fill-mask" (by decide) ptModelNone 0 (by decide)⟩

/-- C8 counterexample: on a model declaring `vocab_size = 2`, the
zero-shot bundle's `input_ids` values are not all below the model's
vocabulary size — the code draws them from the fixed range `[0, 1000)`
regardless of the declared vocabulary. -/
theorem c8_counterexample :
    ¬ (∀ v ∈ inputIdsValues (create_dummy_input
        { cfgAllNone with vocab_size := some 2 }
        "zero-shot-image-classification" 0), v < 2) := by
  decide

/-- C8 amended: for the zero-shot task label the Hugging Face synthesizer
produces a bundle of `pixel_values` of shape `[1, 3, h, h]` with `h` the
`vision_config` image size defaulting to 224, `input_ids` of shape
`[1, 77]` with values in the fixed range `[0, 1000)` (not the model's
vocabulary size), and `attention_mask` of shape `[1, 77]` all ones; the
PyTorch synthesizer does the same with edge 224 and fixed range
`[0, 49408)`. -/
theorem c8_zero_shot_bundle_amended :
    (∀ (cfg : HFConfig) (g : Nat),
      ∃ vals,
        create_dummy_input cfg "zero-shot-image-classification" g =
          DummyInput.bundle
            [("pixel_values", Tensor.float [1, 3, zeroShotEdge cfg, zeroShotEdge cfg]),
             ("input_ids", Tensor.int [1, 77] vals),
             ("attention_mask", Tensor.int [1, 77] (List.replicate 77 1))]
            ["pixel_values", "input_ids", "attention_mask"] [] ∧
        vals.length = 77 ∧ ∀ v ∈ vals, v < 1000) ∧
    (∀ cfg : HFConfig, cfg.vision_config = none → zeroShotEdge cfg = 224) ∧
    (∀ (m : PTModel) (g : Nat),
      ∃ vals,
        create_dummy_input_pt m "multimodal" "zero-shot-image-classification" g =
          DummyInput.bundle
            [("pixel_values", Tensor.float [1, 3, 224, 224]),
             ("input_ids", Tensor.int [1, 77] vals),
             ("attention_mask", Tensor.int [1, 77] (List.replicate 77 1))]
            ["pixel_values", "input_ids", "attention_mask"] [] ∧
        vals.length = 77 ∧ ∀ v ∈ vals, v < 49408) := by
  refine ⟨fun cfg g => ?_, fun cfg h => ?_, fun m g => ?_⟩
  · exact ⟨randints g 77 1000, rfl, randints_length _ _ _,
      fun v hv => randints_lt _ _ _ (by decide) v hv⟩
  · rw [zeroShotEdge, h]
  · exact ⟨randints g 77 49408, rfl, randints_length _ _ _,
      fun v hv => randints_lt _ _ _ (by decide) v hv⟩

/-- Witness for C8 amended: the default edge length is 224 when no
`vision_config` is declared. -/
theorem c8_zero_shot_bundle_amended_witness :
    cfgAllNone.vision_config = none ∧ zeroShotEdge cfgAllNone = 224 :=
  ⟨rfl, c8_zero_shot_bundle_amended.2.1 cfgAllNone rfl⟩

/-- C9 counterexample: the synthesizer draws tensor values from the
ambient random generator, so two runs with identical arguments but
successive generator states produce different SyntheticInput values. -/
theorem c9_counterexample :
    create_dummy_input cfgAllNone "fill-mask" 0 ≠
      create_dummy_input cfgAllNone "fill-mask" 1 := by
  decide

/-- C9 amended: the synthesizer is deterministic up to the randomly drawn
tensor values — for every configuration and task label, two runs at any
two generator states agree on the shape signature: entry names, tensor
shapes, input names and dynamic axes. -/
theorem c9_synthesizer_shape_deterministic (cfg : HFConfig) (task : String) (g1 g2 : Nat) :
    (create_dummy_input cfg task g1).sig = (create_dummy_input cfg task g2).sig := by
  by_cases h1 : task ∈ vision_tasks
  · simp [create_dummy_input, h1]
  · by_cases h2 : task = "zero-shot-image-classification"
    · subst h2
      have e1 : ∀ g : Nat,
          (create_dummy_input cfg "zero-shot-image-classification" g).sig =
            ([(some "pixel_values", [1, 3, zeroShotEdge cfg, zeroShotEdge cfg]),
              (some "input_ids", [1, 77]), (some "attention_mask", [1, 77])],
             ["pixel_values", "input_ids", "attention_mask"], []) :=
        fun g => rfl
      rw [e1, e1]
    · simp [create_dummy_input, h1, h2, DummyInput.sig, Tensor.shape]

/-- C10 counterexample: on a directory whose `onnx/` subdirectory holds a
further `.onnx` file the two `find_onnx_files` definitions disagree, and
on a non-directory the local definition fails (models the `os.listdir`
exception) while the shared one returns the empty list. -/
theorem c10_counterexample :
    find_onnx_files_hf fsWithSubdir "d" ≠ some (find_onnx_files fsWithSubdir "d") ∧
    find_onnx_files_hf fsWithSubdir "e" = none ∧
    find_onnx_files fsWithSubdir "e" = [] :=
  ⟨by decide, by decide, by decide⟩

/-- C10 amended: the two definitions agree on every input that is a
directory without an `onnx/` subdirectory; on a non-directory the shared
version returns the empty list while the local one raises, and when an
`onnx/` subdirectory exists the shared version additionally returns its
`.onnx` files. -/
theorem c10_find_onnx_files_agree (fs : FS) (d : String)
    (h1 : fs.isdir d = true) (h2 : fs.isdir (pathJoin d "onnx") = false) :
    find_onnx_files_hf fs d = some (find_onnx_files fs d) := by
  rw [find_onnx_files_hf, find_onnx_files]
  simp [h1, h2]

/-- Witness for C10 amended: a directory with one `.onnx` file and no
`onnx/` subdirectory. -/
theorem c10_find_onnx_files_agree_witness :
    fsSingleDir.isdir "out" = true ∧
    fsSingleDir.isdir (pathJoin "out" "onnx") = false ∧
    find_onnx_files_hf fsSingleDir "out" = some (find_onnx_files fsSingleDir "out") :=
  ⟨by decide, by decide, c10_find_onnx_files_agree fsSingleDir "out" (by decide) (by decide)⟩

end Axon
